import Mathlib

/-!
Shallow embedding of the liveness-challenge / face-recognition core of this
repository, translated from `src/src/utils/faceRecognitionUtils.js` (the
authoritative variant; the files under `src/unnamed/` are earlier
near-duplicates of the same module) together with the session-handling parts
of `src/src/components/FaceRecognition.js`.

Numeric idealisation: JavaScript IEEE-754 doubles are modelled as real
numbers; `((1 - d) * 100).toFixed(2)` followed by the numeric coercion that
the `>=` comparison performs on the resulting string is modelled as exact
rounding to two decimal places (half away from zero, which on the values
reached here coincides with Mathlib's `round`, i.e. round half up).  The one
place where the code can produce a non-finite double — the unguarded division
in `eyeAspectRatio` — is modelled explicitly by the `JsNum` type below.
-/

namespace FaceRecog

open Classical

noncomputable section

/-- Result of the JavaScript division `height / width` on nonnegative finite
operands: a finite value, `Infinity` (positive numerator over a zero
denominator) or `NaN` (`0 / 0`). -/
inductive JsNum where
  | num (x : ℝ)
  | posInf
  | nan

/-- JavaScript division `h / w` for nonnegative finite operands (the operands
here are `Math.hypot` results, hence nonnegative). -/
def jsDiv (h w : ℝ) : JsNum :=
  if w = 0 then (if h = 0 then JsNum.nan else JsNum.posInf) else JsNum.num (h / w)

/-- JavaScript comparison `a < t` against a finite threshold `t`: every
comparison involving `NaN` is false, and `Infinity < t` is false. -/
def jsLt (a : JsNum) (t : ℝ) : Bool :=
  match a with
  | JsNum.num x => decide (x < t)
  | JsNum.posInf => false
  | JsNum.nan => false

/-- One eye's 6 contour landmark points, as returned by
`landmarks.getLeftEye()` / `landmarks.getRightEye()`
(faceRecognitionUtils.js lines 138-139). -/
abbrev Eye := Fin 6 → ℝ × ℝ

/-- Math.hypot on two finite arguments. -/
def hypot (dx dy : ℝ) : ℝ := Real.sqrt (dx ^ 2 + dy ^ 2)

/-- The eye's horizontal width `Math.hypot(eye[3].x - eye[0].x, eye[3].y - eye[0].y)`
(line 141). -/
def eyeWidth (eye : Eye) : ℝ :=
  hypot ((eye 3).1 - (eye 0).1) ((eye 3).2 - (eye 0).2)

/-- The eye's vertical height `Math.hypot(eye[1].x - eye[5].x, eye[1].y - eye[5].y)`
(line 142). -/
def eyeHeight (eye : Eye) : ℝ :=
  hypot ((eye 1).1 - (eye 5).1) ((eye 1).2 - (eye 5).2)

/-- The `eyeAspectRatio` closure of lines 140-144: `height / width` with no
guard on a zero width, under JavaScript division semantics. -/
def eyeAspectRatio (eye : Eye) : JsNum :=
  jsDiv (eyeHeight eye) (eyeWidth eye)

/-- The adjustable EAR threshold of line 113 (`const BLINK_THRESHOLD = 0.6`). -/
def BLINK_THRESHOLD : ℝ := 6 / 10

/-- The blink test of line 152:
`leftEAR < BLINK_THRESHOLD && rightEAR < BLINK_THRESHOLD`, parametrised by
the threshold. -/
def isBlink (t : ℝ) (leftEye rightEye : Eye) : Bool :=
  jsLt (eyeAspectRatio leftEye) t && jsLt (eyeAspectRatio rightEye) t

/-- Sum of squared componentwise differences of two descriptor vectors
(face-api's euclidean distance before the square root). -/
def sumSqDiff : List ℝ → List ℝ → ℝ
  | a :: as, b :: bs => (a - b) ^ 2 + sumSqDiff as bs
  | _, _ => 0

/-- Euclidean distance between two descriptor vectors.  This is
`match.distance` produced by `new FaceMatcher(referenceDescriptor, 0.6)
.findBestMatch(descriptor)` (lines 160-161): the reference profile holds a
single labelled descriptor, so the best-match distance is exactly the
euclidean distance to it. -/
def euclideanDistance (a b : List ℝ) : ℝ :=
  Real.sqrt (sumSqDiff a b)

/-- Numeric value of `((1 - match.distance) * 100).toFixed(2)`
(lines 82, 162, 183): the raw rate rounded to two decimal places.  The later
`>=` comparison coerces the string back to exactly this number. -/
def matchRate (d : ℝ) : ℝ :=
  (round ((1 - d) * 100 * 100) : ℤ) / 100

/-- The per-challenge scoring verdict `matchRate >= τ` (line 164 with τ = 80;
`src/unnamed/part_001` line 93 with τ = 70). -/
def isMatchVerdict (d t : ℝ) : Prop := matchRate d ≥ t

/-- One detected face as consumed by `processFrame` (lines 132-137): the two
eye contours, the backend's `happy` expression probability and the face
descriptor vector. -/
structure Detection where
  leftEye : Eye
  rightEye : Eye
  happy : ℝ
  descriptor : List ℝ

/-- The progress messages emitted through `updateProgressMessage` inside the
frame loop, one constructor per call site, carrying the numeric payloads that
the interpolated strings carry. -/
inductive Msg where
  | earLog (l r : JsNum)    -- line 150, the EAR debug log
  | pleaseBlink             -- line 155, 'Please blink.'
  | blinkDetectedMsg        -- line 159, 'Blink detected! ...'
  | blinkSuccess (rate : ℝ) -- line 166, 'Blink SUCCESS: Match Rate ...%'
  | blinkFailed (rate : ℝ)  -- line 168, 'Blink FAILED: Match Rate ...%'
  | pleaseSmile             -- line 176, 'Please smile.'
  | smileDetectedMsg        -- line 180, 'Smile detected! ...'
  | smileSuccess (rate : ℝ) -- line 187, 'Smile SUCCESS: Match Rate ...%'
  | smileFailed (rate : ℝ)  -- line 189, 'Smile FAILED: Match Rate ...%'
  | success                 -- line 195, the final success message
  | noFaces                 -- line 201, 'No faces detected. ...'
  | errorMsg                -- line 212, 'An error occurred during the check.'

/-- Boolean classifier for the blink-pass message. -/
def Msg.isBlinkSuccess : Msg → Bool
  | Msg.blinkSuccess _ => true
  | _ => false

/-- Boolean classifier for the messages emitted by the smile scoring branch
(lines 179-191). -/
def Msg.isSmileScore : Msg → Bool
  | Msg.smileDetectedMsg => true
  | Msg.smileSuccess _ => true
  | Msg.smileFailed _ => true
  | _ => false

/-- Boolean classifier for the final success message. -/
def Msg.isSuccess : Msg → Bool
  | Msg.success => true
  | _ => false

/-- Boolean classifier for the no-face message. -/
def Msg.isNoFaces : Msg → Bool
  | Msg.noFaces => true
  | _ => false

/-- Boolean classifier for the reminder message of the blink challenge. -/
def Msg.isPleaseBlink : Msg → Bool
  | Msg.pleaseBlink => true
  | _ => false

/-- Boolean classifier for the catch-handler message. -/
def Msg.isErrorMsg : Msg → Bool
  | Msg.errorMsg => true
  | _ => false

/-- The two mutable closure flags of lines 109-110. -/
structure SessionState where
  blinkDetected : Bool
  smileDetected : Bool
deriving DecidableEq

/-- Lines 136-170 of `processFrame`: the EAR debug log, the blink reminder,
and the blink scoring branch.  Returns the updated flags and the messages
emitted, in order. -/
def blinkPhase (ref : List ℝ) (s : SessionState) (d : Detection) :
    SessionState × List Msg :=
  let leftEAR := eyeAspectRatio d.leftEye
  let rightEAR := eyeAspectRatio d.rightEye
  let log := [Msg.earLog leftEAR rightEAR] ++
    (if s.blinkDetected then [] else [Msg.pleaseBlink])
  if isBlink BLINK_THRESHOLD d.leftEye d.rightEye && !s.blinkDetected then
    let rate := matchRate (euclideanDistance d.descriptor ref)
    if rate ≥ 80 then
      (⟨true, s.smileDetected⟩, log ++ [Msg.blinkDetectedMsg, Msg.blinkSuccess rate])
    else
      (s, log ++ [Msg.blinkDetectedMsg, Msg.blinkFailed rate])
  else (s, log)

/-- Lines 172-191 of `processFrame`: the smile reminder and the smile scoring
branch.  Note that the expression test `expressions.happy > 0.7` itself is
computed on every frame (line 173); only its effect is gated on
`blinkDetected`. -/
def smilePhase (ref : List ℝ) (s : SessionState) (d : Detection) :
    SessionState × List Msg :=
  let prompt := if s.blinkDetected && !s.smileDetected then [Msg.pleaseSmile] else []
  if decide (d.happy > 7 / 10) && s.blinkDetected && !s.smileDetected then
    let rate := matchRate (euclideanDistance d.descriptor ref)
    if rate ≥ 80 then
      (⟨s.blinkDetected, true⟩, prompt ++ [Msg.smileDetectedMsg, Msg.smileSuccess rate])
    else
      (s, prompt ++ [Msg.smileDetectedMsg, Msg.smileFailed rate])
  else (s, prompt)

/-- Result of processing the detections of one frame: updated flags, emitted
messages, and whether the completion branch of lines 193-199 ran. -/
structure FrameStep where
  state : SessionState
  msgs : List Msg
  done : Bool

/-- The body of `processFrame` for one frame's detection list
(lines 132-202): on an empty list only the no-face message of line 201 is
emitted and every flag is left untouched; otherwise the first detection is
scored through the blink phase, the smile phase, and the completion check. -/
def processDetections (ref : List ℝ) (s : SessionState) :
    List Detection → FrameStep
  | [] => ⟨s, [Msg.noFaces], false⟩
  | d :: _ =>
    let b := blinkPhase ref s d
    let m := smilePhase ref b.1 d
    if m.1.blinkDetected && m.1.smileDetected then
      ⟨m.1, b.2 ++ m.2 ++ [Msg.success], true⟩
    else
      ⟨m.1, b.2 ++ m.2, false⟩

/-- Result of one backend `detect` call for one frame: a rejected promise or
a list of detections. -/
inductive FrameResult where
  | err
  | ok (detections : List Detection)

/-- Terminal observation of a finitely observed session run. -/
inductive Outcome where
  | completed     -- the completion branch of line 194 ran
  | backendError  -- a detect call rejected and the loop stopped silently
  | outOfFrames   -- modelling artifact: the finite feed ran out mid-session
deriving DecidableEq

/-- Observable result of running the frame loop over a finite feed: the
progress messages in emission order, the number of times the completion
callback was scheduled (`setTimeout(onComplete, 500)`, line 197), the
terminal observation, and the final values of the two closure flags. -/
structure RunResult where
  msgs : List Msg
  callbackCount : ℕ
  outcome : Outcome
  state : SessionState

/-- The frame loop of `performLivenessAndRecognition` (lines 115-209) run
over a finite feed of backend results.  A rejected `detect` stops the loop
with no further action: `processFrame` is an `async` function invoked without
`await` (line 209), and subsequent invocations run from
`requestAnimationFrame` (line 205) with an empty call stack, so the
`try`/`catch` of lines 107-213 never observes the rejection — the handler
message of line 212 is unreachable from the loop, nothing is propagated to
the caller, and no retry happens because line 205 is never reached on the
failing frame. -/
def runAux (ref : List ℝ) (s : SessionState) : List FrameResult → RunResult
  | [] => ⟨[], 0, Outcome.outOfFrames, s⟩
  | FrameResult.err :: _ => ⟨[], 0, Outcome.backendError, s⟩
  | FrameResult.ok dets :: rest =>
    let f := processDetections ref s dets
    if f.done then ⟨f.msgs, 1, Outcome.completed, f.state⟩
    else
      let t := runAux ref f.state rest
      ⟨f.msgs ++ t.msgs, t.callbackCount, t.outcome, t.state⟩

/-- A whole session: the loop started from both flags false (lines 109-110)
with the reference descriptor captured by the closure at start time. -/
def run (ref : List ℝ) (frames : List FrameResult) : RunResult :=
  runAux ref ⟨false, false⟩ frames

/-- Modelled from `src/src/components/FaceRecognition.js` lines 207-219:
`handleImageUpload` replaces the component's `referenceDescriptor` state (and
resets camera flags) but cancels nothing, and the running loop's closure
captured the original descriptor when the session started and never re-reads
the component state; hence the session observed after an upload of `newRef`
is exactly the original run against the captured `ref0`. -/
def runAfterUpload (ref0 newRef : List ℝ) (frames : List FrameResult) : RunResult :=
  run ref0 frames

/-- A face detected in a still enrollment image: its detection confidence
score and its computed descriptor. -/
structure EnrollFace where
  score : ℝ
  descriptor : List ℝ

/-- Modelled from the spec: the vision-backend adapter operation
`detect(frame) → list<Face>` (spec §4.1) combined with the stated policy that
the system "always acts on the first/best detection" (spec §2) — this is
face-api's `detectSingleFace`, used by `processReferenceImage`
(faceRecognitionUtils.js line 27) but implemented outside `src/`: it selects
the single detection with the highest confidence score from the image and
returns nothing only when the image contains no face at all. -/
def detectSingleFace : List EnrollFace → Option EnrollFace
  | [] => none
  | f :: fs => some (fs.foldl (fun best g => if g.score > best.score then g else best) f)

/-- `processReferenceImage` (lines 23-44): wraps the best detection's
descriptor into the labelled reference profile; when there is no detection it
reports 'No face detected in the uploaded image.' and returns null.  The
returned pair is (created profile, whether an error was reported). -/
def processReferenceImage (faces : List EnrollFace) : Option (List ℝ) × Bool :=
  match detectSingleFace faces with
  | some d => (some d.descriptor, false)
  | none => (none, true)

/-- The guard of `handleCheck` (`FaceRecognition.js` lines 221-233): a session
only starts when the models are loaded, a reference descriptor exists and the
camera is ready. -/
def sessionStarts (modelsLoaded : Bool) (refDesc : Option (List ℝ))
    (cameraReady : Bool) : Bool :=
  modelsLoaded && refDesc.isSome && cameraReady

/-- A synthetic eye: horizontal corners p0 = (0,0) and p3 = (1,0), and the
vertical pair p1 = (1/2, h), p5 = (1/2, 0); its width is 1 and its height is
h, so its aspect ratio is exactly h. -/
def vEye (h : ℝ) : Eye := fun i =>
  if i.val = 1 then (1 / 2, h)
  else if i.val = 3 then (1, 0)
  else if i.val = 5 then (1 / 2, 0)
  else (0, 0)

/-- A degenerate eye whose six landmark points coincide, so both the width
and the height are zero. -/
def degEye : Eye := fun _ => (0, 0)

/-- Reference descriptor used by the concrete scripted runs. -/
def refC : List ℝ := [0, 0]

/-- A second reference descriptor, the profile uploaded mid-session in the
upload-invalidation scenario. -/
def refNew : List ℝ := [5, 5]

/-- Frame-2 detection of the scripted feed: both eyes open (aspect ratio
7/10, above the 6/10 threshold), not smiling. -/
def dOpen : Detection := ⟨vEye (7 / 10), vEye (7 / 10), 0, [1, 1]⟩

/-- Frame-3 detection of the scripted feed: both eyes closed (aspect ratio
1/10, below the threshold), not smiling, descriptor at euclidean distance
1/20 from `refC`, so the match rate is exactly 95. -/
def dBlink : Detection := ⟨vEye (1 / 10), vEye (1 / 10), 0, [3 / 100, 4 / 100]⟩

/-- A detection that blinks and smiles in the same frame with a descriptor
identical to `refC` (match rate 100). -/
def dFull : Detection := ⟨vEye (1 / 10), vEye (1 / 10), 9 / 10, [0, 0]⟩

/-- The scripted three-frame feed: frame 1 no face, frame 2 open eyes,
frame 3 a blink matching at 95%. -/
def feedC1 : List FrameResult :=
  [FrameResult.ok [], FrameResult.ok [dOpen], FrameResult.ok [dBlink]]

/-- A feed that completes the whole session in a single frame. -/
def feedFull : List FrameResult := [FrameResult.ok [dFull]]

/-- A feed whose second detect call rejects; a further frame follows to show
that it is never processed. -/
def feedErr : List FrameResult :=
  [FrameResult.ok [], FrameResult.err, FrameResult.ok []]

/-- A two-face enrollment image; the second face carries the higher
detection score. -/
def facesTwo : List EnrollFace := [⟨1, [0]⟩, ⟨2, [1]⟩]

end

/-! Basic lemmas about the JavaScript number model and the geometry. -/

lemma jsLt_num (x t : ℝ) : jsLt (JsNum.num x) t = true ↔ x < t := by
  simp [jsLt]

lemma jsLt_posInf (t : ℝ) : jsLt JsNum.posInf t = false := rfl

lemma jsLt_nan (t : ℝ) : jsLt JsNum.nan t = false := rfl

lemma eyeWidth_nonneg (e : Eye) : 0 ≤ eyeWidth e := Real.sqrt_nonneg _

lemma eyeAspectRatio_of_width_ne (e : Eye) (h : eyeWidth e ≠ 0) :
    eyeAspectRatio e = JsNum.num (eyeHeight e / eyeWidth e) := by
  unfold eyeAspectRatio jsDiv
  rw [if_neg h]

lemma vEye_at0 (h : ℝ) : vEye h 0 = (0, 0) := rfl

lemma vEye_at1 (h : ℝ) : vEye h 1 = (1 / 2, h) := rfl

lemma vEye_at3 (h : ℝ) : vEye h 3 = (1, 0) := rfl

lemma vEye_at5 (h : ℝ) : vEye h 5 = (1 / 2, 0) := rfl

lemma vEye_width (h : ℝ) : eyeWidth (vEye h) = 1 := by
  show Real.sqrt _ = 1
  rw [vEye_at3, vEye_at0]
  norm_num

lemma vEye_height (h : ℝ) (hh : 0 ≤ h) : eyeHeight (vEye h) = h := by
  show Real.sqrt _ = h
  rw [vEye_at1, vEye_at5]
  rw [show ((1 : ℝ) / 2, h).1 - ((1 : ℝ) / 2, (0 : ℝ)).1 = 0 from by norm_num,
    show ((1 : ℝ) / 2, h).2 - ((1 : ℝ) / 2, (0 : ℝ)).2 = h from by norm_num]
  rw [show (0 : ℝ) ^ 2 + h ^ 2 = h ^ 2 by ring]
  exact Real.sqrt_sq hh

lemma vEye_ear (h : ℝ) (hh : 0 ≤ h) : eyeAspectRatio (vEye h) = JsNum.num h := by
  rw [eyeAspectRatio_of_width_ne _ (by rw [vEye_width]; norm_num),
    vEye_width, vEye_height h hh]
  norm_num

lemma degEye_width : eyeWidth degEye = 0 := by
  show Real.sqrt _ = 0
  rw [show ((degEye 3).1 - (degEye 0).1) ^ 2 + ((degEye 3).2 - (degEye 0).2) ^ 2
      = 0 by simp [degEye]]
  exact Real.sqrt_zero

lemma degEye_ear : eyeAspectRatio degEye = JsNum.nan := by
  unfold eyeAspectRatio jsDiv
  rw [if_pos degEye_width, if_pos]
  show Real.sqrt _ = 0
  rw [show ((degEye 1).1 - (degEye 5).1) ^ 2 + ((degEye 1).2 - (degEye 5).2) ^ 2
      = 0 by simp [degEye]]
  exact Real.sqrt_zero

/-! Evaluation of the scorer at the concrete descriptors. -/

lemma euclid_pair (x y : ℝ) :
    euclideanDistance [x, y] [0, 0] = Real.sqrt (x ^ 2 + y ^ 2) := by
  unfold euclideanDistance
  rw [show sumSqDiff [x, y] [0, 0] = x ^ 2 + y ^ 2 by
    simp [sumSqDiff]]

lemma euclid_self_pair : euclideanDistance [(0 : ℝ), 0] [0, 0] = 0 := by
  rw [euclid_pair, show (0 : ℝ) ^ 2 + 0 ^ 2 = 0 by norm_num]
  exact Real.sqrt_zero

lemma euclid_dBlink : euclideanDistance [(3 : ℝ) / 100, 4 / 100] [0, 0] = 1 / 20 := by
  rw [euclid_pair, show ((3 : ℝ) / 100) ^ 2 + (4 / 100) ^ 2 = (1 / 20) ^ 2 by norm_num]
  exact Real.sqrt_sq (by norm_num)

lemma euclid_single (x : ℝ) (hx : 0 ≤ x) : euclideanDistance [x] [0] = x := by
  unfold euclideanDistance
  rw [show sumSqDiff [x] [0] = x ^ 2 by simp [sumSqDiff]]
  exact Real.sqrt_sq hx

lemma matchRate_zero : matchRate 0 = 100 := by
  unfold matchRate
  rw [show ((1 : ℝ) - 0) * 100 * 100 = ((10000 : ℤ) : ℝ) by norm_num, round_intCast]
  norm_num

lemma matchRate_95 : matchRate (1 / 20) = 95 := by
  unfold matchRate
  rw [show ((1 : ℝ) - 1 / 20) * 100 * 100 = ((9500 : ℤ) : ℝ) by norm_num, round_intCast]
  norm_num

lemma matchRate_boundary : matchRate (20001 / 100000) = 80 := by
  unfold matchRate
  rw [show ((1 : ℝ) - 20001 / 100000) * 100 * 100 = 79999 / 10 by norm_num, round_eq]
  rw [show ⌊(79999 : ℝ) / 10 + 1 / 2⌋ = (8000 : ℤ) from Int.floor_eq_iff.mpr (by norm_num)]
  norm_num

lemma matchRate_neg : matchRate (6 / 5) = -20 := by
  unfold matchRate
  rw [show ((1 : ℝ) - 6 / 5) * 100 * 100 = ((-2000 : ℤ) : ℝ) by norm_num, round_intCast]
  norm_num

/-! Branch lemmas for the two phases of `processFrame`. -/

lemma blinkPhase_already (ref : List ℝ) (s : SessionState) (d : Detection)
    (hs : s.blinkDetected = true) :
    blinkPhase ref s d =
      (s, [Msg.earLog (eyeAspectRatio d.leftEye) (eyeAspectRatio d.rightEye)]) := by
  unfold blinkPhase
  rw [hs]
  simp

lemma blinkPhase_noBlink (ref : List ℝ) (s : SessionState) (d : Detection)
    (hs : s.blinkDetected = false)
    (h : isBlink BLINK_THRESHOLD d.leftEye d.rightEye = false) :
    blinkPhase ref s d =
      (s, [Msg.earLog (eyeAspectRatio d.leftEye) (eyeAspectRatio d.rightEye),
        Msg.pleaseBlink]) := by
  unfold blinkPhase
  rw [hs, h]
  simp

lemma blinkPhase_pass (ref : List ℝ) (s : SessionState) (d : Detection)
    (hs : s.blinkDetected = false)
    (h : isBlink BLINK_THRESHOLD d.leftEye d.rightEye = true)
    (hr : matchRate (euclideanDistance d.descriptor ref) ≥ 80) :
    blinkPhase ref s d = (⟨true, s.smileDetected⟩,
      [Msg.earLog (eyeAspectRatio d.leftEye) (eyeAspectRatio d.rightEye),
        Msg.pleaseBlink, Msg.blinkDetectedMsg,
        Msg.blinkSuccess (matchRate (euclideanDistance d.descriptor ref))]) := by
  unfold blinkPhase
  rw [hs, h]
  simp [hr]

lemma blinkPhase_failAttempt (ref : List ℝ) (s : SessionState) (d : Detection)
    (hs : s.blinkDetected = false)
    (h : isBlink BLINK_THRESHOLD d.leftEye d.rightEye = true)
    (hr : ¬ matchRate (euclideanDistance d.descriptor ref) ≥ 80) :
    blinkPhase ref s d = (s,
      [Msg.earLog (eyeAspectRatio d.leftEye) (eyeAspectRatio d.rightEye),
        Msg.pleaseBlink, Msg.blinkDetectedMsg,
        Msg.blinkFailed (matchRate (euclideanDistance d.descriptor ref))]) := by
  unfold blinkPhase
  rw [hs, h]
  simp [hr]

lemma smilePhase_notReady (ref : List ℝ) (s : SessionState) (d : Detection)
    (hs : s.blinkDetected = false) :
    smilePhase ref s d = (s, []) := by
  unfold smilePhase
  rw [hs]
  simp

lemma smilePhase_alreadySmiled (ref : List ℝ) (s : SessionState) (d : Detection)
    (hsm : s.smileDetected = true) :
    smilePhase ref s d = (s, []) := by
  unfold smilePhase
  rw [hsm]
  simp

lemma smilePhase_noSmile (ref : List ℝ) (s : SessionState) (d : Detection)
    (hb : s.blinkDetected = true) (hsm : s.smileDetected = false)
    (hh : ¬ d.happy > 7 / 10) :
    smilePhase ref s d = (s, [Msg.pleaseSmile]) := by
  unfold smilePhase
  rw [hb, hsm]
  simp [hh]

lemma smilePhase_pass (ref : List ℝ) (s : SessionState) (d : Detection)
    (hb : s.blinkDetected = true) (hsm : s.smileDetected = false)
    (hh : d.happy > 7 / 10)
    (hr : matchRate (euclideanDistance d.descriptor ref) ≥ 80) :
    smilePhase ref s d = (⟨true, true⟩,
      [Msg.pleaseSmile, Msg.smileDetectedMsg,
        Msg.smileSuccess (matchRate (euclideanDistance d.descriptor ref))]) := by
  unfold smilePhase
  rw [hb, hsm]
  simp [hh, hr]

lemma smilePhase_failAttempt (ref : List ℝ) (s : SessionState) (d : Detection)
    (hb : s.blinkDetected = true) (hsm : s.smileDetected = false)
    (hh : d.happy > 7 / 10)
    (hr : ¬ matchRate (euclideanDistance d.descriptor ref) ≥ 80) :
    smilePhase ref s d = (s,
      [Msg.pleaseSmile, Msg.smileDetectedMsg,
        Msg.smileFailed (matchRate (euclideanDistance d.descriptor ref))]) := by
  unfold smilePhase
  rw [hb, hsm]
  simp [hh, hr]

/-! Structural lemmas about the two phases, used by the run-level
invariants. -/

lemma blinkPhase_cases (ref : List ℝ) (s : SessionState) (d : Detection) :
    (blinkPhase ref s d =
        (s, [Msg.earLog (eyeAspectRatio d.leftEye) (eyeAspectRatio d.rightEye)]) ∧
      s.blinkDetected = true) ∨
    (blinkPhase ref s d =
        (s, [Msg.earLog (eyeAspectRatio d.leftEye) (eyeAspectRatio d.rightEye),
          Msg.pleaseBlink]) ∧
      s.blinkDetected = false) ∨
    (blinkPhase ref s d = (⟨true, s.smileDetected⟩,
        [Msg.earLog (eyeAspectRatio d.leftEye) (eyeAspectRatio d.rightEye),
          Msg.pleaseBlink, Msg.blinkDetectedMsg,
          Msg.blinkSuccess (matchRate (euclideanDistance d.descriptor ref))]) ∧
      s.blinkDetected = false) ∨
    (blinkPhase ref s d = (s,
        [Msg.earLog (eyeAspectRatio d.leftEye) (eyeAspectRatio d.rightEye),
          Msg.pleaseBlink, Msg.blinkDetectedMsg,
          Msg.blinkFailed (matchRate (euclideanDistance d.descriptor ref))]) ∧
      s.blinkDetected = false) := by
  cases hs : s.blinkDetected with
  | true => exact Or.inl ⟨blinkPhase_already ref s d hs, rfl⟩
  | false =>
    cases hib : isBlink BLINK_THRESHOLD d.leftEye d.rightEye with
    | false => exact Or.inr (Or.inl ⟨blinkPhase_noBlink ref s d hs hib, rfl⟩)
    | true =>
      by_cases hr : matchRate (euclideanDistance d.descriptor ref) ≥ 80
      · exact Or.inr (Or.inr (Or.inl ⟨blinkPhase_pass ref s d hs hib hr, rfl⟩))
      · exact Or.inr (Or.inr (Or.inr ⟨blinkPhase_failAttempt ref s d hs hib hr, rfl⟩))

lemma smilePhase_cases (ref : List ℝ) (s : SessionState) (d : Detection) :
    (smilePhase ref s d = (s, []) ∧ (s.blinkDetected = false ∨ s.smileDetected = true)) ∨
    (smilePhase ref s d = (s, [Msg.pleaseSmile]) ∧
      s.blinkDetected = true ∧ s.smileDetected = false) ∨
    (smilePhase ref s d = (⟨true, true⟩,
        [Msg.pleaseSmile, Msg.smileDetectedMsg,
          Msg.smileSuccess (matchRate (euclideanDistance d.descriptor ref))]) ∧
      s.blinkDetected = true ∧ s.smileDetected = false) ∨
    (smilePhase ref s d = (s,
        [Msg.pleaseSmile, Msg.smileDetectedMsg,
          Msg.smileFailed (matchRate (euclideanDistance d.descriptor ref))]) ∧
      s.blinkDetected = true ∧ s.smileDetected = false) := by
  cases hb : s.blinkDetected with
  | false => exact Or.inl ⟨smilePhase_notReady ref s d hb, Or.inl rfl⟩
  | true =>
    cases hsm : s.smileDetected with
    | true => exact Or.inl ⟨smilePhase_alreadySmiled ref s d hsm, Or.inr rfl⟩
    | false =>
      by_cases hh : d.happy > 7 / 10
      · by_cases hr : matchRate (euclideanDistance d.descriptor ref) ≥ 80
        · exact Or.inr (Or.inr (Or.inl ⟨smilePhase_pass ref s d hb hsm hh hr, rfl, rfl⟩))
        · exact Or.inr (Or.inr (Or.inr
            ⟨smilePhase_failAttempt ref s d hb hsm hh hr, rfl, rfl⟩))
      · exact Or.inr (Or.inl ⟨smilePhase_noSmile ref s d hb hsm hh, rfl, rfl⟩)

lemma blinkPhase_fst_smile (ref : List ℝ) (s : SessionState) (d : Detection) :
    (blinkPhase ref s d).1.smileDetected = s.smileDetected := by
  rcases blinkPhase_cases ref s d with ⟨h, _⟩ | ⟨h, _⟩ | ⟨h, _⟩ | ⟨h, _⟩ <;> rw [h]

lemma blinkPhase_blink_source (ref : List ℝ) (s : SessionState) (d : Detection)
    (hb : (blinkPhase ref s d).1.blinkDetected = true) :
    s.blinkDetected = true ∨ ∃ r, Msg.blinkSuccess r ∈ (blinkPhase ref s d).2 := by
  rcases blinkPhase_cases ref s d with ⟨h, hs⟩ | ⟨h, hs⟩ | ⟨h, hs⟩ | ⟨h, hs⟩
  · exact Or.inl hs
  · rw [h] at hb
    exact Or.inl hb
  · exact Or.inr ⟨matchRate (euclideanDistance d.descriptor ref), by rw [h]; simp⟩
  · rw [h] at hb
    exact Or.inl hb

lemma blinkPhase_msgs_kinds (ref : List ℝ) (s : SessionState) (d : Detection) :
    ∀ m ∈ (blinkPhase ref s d).2, m.isSmileScore = false ∧ m.isSuccess = false := by
  rcases blinkPhase_cases ref s d with ⟨h, _⟩ | ⟨h, _⟩ | ⟨h, _⟩ | ⟨h, _⟩ <;> rw [h] <;>
    intro m hm <;> simp at hm <;>
    first
    | (subst hm; exact ⟨rfl, rfl⟩)
    | (rcases hm with rfl | rfl <;> exact ⟨rfl, rfl⟩)
    | (rcases hm with rfl | rfl | rfl | rfl <;> exact ⟨rfl, rfl⟩)

lemma smilePhase_fst_blink (ref : List ℝ) (s : SessionState) (d : Detection) :
    (smilePhase ref s d).1.blinkDetected = s.blinkDetected := by
  rcases smilePhase_cases ref s d with ⟨h, _⟩ | ⟨h, _⟩ | ⟨h, hs⟩ | ⟨h, _⟩ <;> rw [h]
  exact hs.1.symm

lemma smilePhase_smile_source (ref : List ℝ) (s : SessionState) (d : Detection)
    (hb : (smilePhase ref s d).1.smileDetected = true) :
    s.smileDetected = true ∨ ∃ r, Msg.smileSuccess r ∈ (smilePhase ref s d).2 := by
  rcases smilePhase_cases ref s d with ⟨h, _⟩ | ⟨h, _⟩ | ⟨h, _⟩ | ⟨h, _⟩
  · rw [h] at hb
    exact Or.inl hb
  · rw [h] at hb
    exact Or.inl hb
  · exact Or.inr ⟨matchRate (euclideanDistance d.descriptor ref), by rw [h]; simp⟩
  · rw [h] at hb
    exact Or.inl hb

lemma smilePhase_msgs_kinds (ref : List ℝ) (s : SessionState) (d : Detection) :
    ∀ m ∈ (smilePhase ref s d).2, m.isSuccess = false ∧ m.isBlinkSuccess = false := by
  rcases smilePhase_cases ref s d with ⟨h, _⟩ | ⟨h, _⟩ | ⟨h, _⟩ | ⟨h, _⟩ <;> rw [h] <;>
    intro m hm <;> simp at hm <;>
    first
    | (subst hm; exact ⟨rfl, rfl⟩)
    | (rcases hm with rfl | rfl | rfl <;> exact ⟨rfl, rfl⟩)

lemma smilePhase_smileScore_needs_blink (ref : List ℝ) (s : SessionState)
    (d : Detection) :
    ∀ m ∈ (smilePhase ref s d).2, m.isSmileScore = true → s.blinkDetected = true := by
  rcases smilePhase_cases ref s d with ⟨h, _⟩ | ⟨h, hs⟩ | ⟨h, hs⟩ | ⟨h, hs⟩ <;> rw [h] <;>
    intro m hm hsc <;> simp at hm <;> exact hs.1

/-! Frame-level lemmas about `processDetections`. -/

lemma processDetections_nil (ref : List ℝ) (s : SessionState) :
    processDetections ref s [] = ⟨s, [Msg.noFaces], false⟩ := rfl

lemma processDetections_eval (ref : List ℝ) (s : SessionState) (d : Detection)
    (ds : List Detection) (s1 s2 : SessionState) (b1 m1 : List Msg)
    (hb : blinkPhase ref s d = (s1, b1)) (hm : smilePhase ref s1 d = (s2, m1))
    (hdone : (s2.blinkDetected && s2.smileDetected) = false) :
    processDetections ref s (d :: ds) = ⟨s2, b1 ++ m1, false⟩ := by
  simp only [processDetections, hb, hm, hdone]
  simp

lemma processDetections_eval_done (ref : List ℝ) (s : SessionState) (d : Detection)
    (ds : List Detection) (s1 s2 : SessionState) (b1 m1 : List Msg)
    (hb : blinkPhase ref s d = (s1, b1)) (hm : smilePhase ref s1 d = (s2, m1))
    (hdone : (s2.blinkDetected && s2.smileDetected) = true) :
    processDetections ref s (d :: ds) = ⟨s2, b1 ++ m1 ++ [Msg.success], true⟩ := by
  simp only [processDetections, hb, hm, hdone]
  simp

lemma processDetections_cases (ref : List ℝ) (s : SessionState) (d : Detection)
    (ds : List Detection) :
    (processDetections ref s (d :: ds) =
        ⟨(smilePhase ref (blinkPhase ref s d).1 d).1,
          (blinkPhase ref s d).2 ++ (smilePhase ref (blinkPhase ref s d).1 d).2 ++
            [Msg.success], true⟩ ∧
      ((smilePhase ref (blinkPhase ref s d).1 d).1.blinkDetected = true ∧
        (smilePhase ref (blinkPhase ref s d).1 d).1.smileDetected = true)) ∨
    (processDetections ref s (d :: ds) =
        ⟨(smilePhase ref (blinkPhase ref s d).1 d).1,
          (blinkPhase ref s d).2 ++ (smilePhase ref (blinkPhase ref s d).1 d).2,
          false⟩ ∧
      ¬((smilePhase ref (blinkPhase ref s d).1 d).1.blinkDetected = true ∧
        (smilePhase ref (blinkPhase ref s d).1 d).1.smileDetected = true)) := by
  by_cases hc : ((smilePhase ref (blinkPhase ref s d).1 d).1.blinkDetected &&
      (smilePhase ref (blinkPhase ref s d).1 d).1.smileDetected) = true
  · refine Or.inl ⟨processDetections_eval_done ref s d ds _ _ _ _
      Prod.mk.eta.symm Prod.mk.eta.symm hc, ?_⟩
    simpa [Bool.and_eq_true] using hc
  · have hc' : ((smilePhase ref (blinkPhase ref s d).1 d).1.blinkDetected &&
        (smilePhase ref (blinkPhase ref s d).1 d).1.smileDetected) = false := by
      simpa using hc
    refine Or.inr ⟨processDetections_eval ref s d ds _ _ _ _
      Prod.mk.eta.symm Prod.mk.eta.symm hc', ?_⟩
    intro hcontra
    rw [hcontra.1, hcontra.2] at hc'
    simp at hc'

lemma processDetections_done_state (ref : List ℝ) (s : SessionState)
    (dets : List Detection) (hd : (processDetections ref s dets).done = true) :
    (processDetections ref s dets).state.blinkDetected = true ∧
      (processDetections ref s dets).state.smileDetected = true := by
  cases dets with
  | nil => simp [processDetections_nil] at hd
  | cons d ds =>
    rcases processDetections_cases ref s d ds with ⟨h, hc⟩ | ⟨h, _⟩
    · rw [h]
      exact hc
    · rw [h] at hd
      simp at hd

lemma processDetections_not_done (ref : List ℝ) (s : SessionState)
    (dets : List Detection)
    (hinv : ¬(s.blinkDetected = true ∧ s.smileDetected = true))
    (hd : (processDetections ref s dets).done = false) :
    ¬((processDetections ref s dets).state.blinkDetected = true ∧
      (processDetections ref s dets).state.smileDetected = true) := by
  cases dets with
  | nil => exact hinv
  | cons d ds =>
    rcases processDetections_cases ref s d ds with ⟨h, _⟩ | ⟨h, hc⟩
    · rw [h] at hd
      simp at hd
    · rw [h]
      exact hc

lemma processDetections_success_count (ref : List ℝ) (s : SessionState)
    (dets : List Detection) :
    (processDetections ref s dets).msgs.countP (fun m => m.isSuccess) =
      (if (processDetections ref s dets).done = true then 1 else 0) := by
  cases dets with
  | nil => simp [processDetections_nil, List.countP_cons, Msg.isSuccess, List.countP_nil]
  | cons d ds =>
    have hbk := blinkPhase_msgs_kinds ref s d
    have hsk := smilePhase_msgs_kinds ref (blinkPhase ref s d).1 d
    have hb0 : (blinkPhase ref s d).2.countP (fun m => m.isSuccess) = 0 :=
      List.countP_eq_zero.mpr (fun m hm => by simp [(hbk m hm).2])
    have hs0 : (smilePhase ref (blinkPhase ref s d).1 d).2.countP
        (fun m => m.isSuccess) = 0 :=
      List.countP_eq_zero.mpr (fun m hm => by simp [(hsk m hm).1])
    rcases processDetections_cases ref s d ds with ⟨h, _⟩ | ⟨h, _⟩ <;> rw [h]
    · show ((blinkPhase ref s d).2 ++ (smilePhase ref (blinkPhase ref s d).1 d).2 ++
        [Msg.success]).countP (fun m => m.isSuccess) = _
      rw [List.countP_append, List.countP_append, hb0, hs0]
      simp [List.countP_cons, Msg.isSuccess]
    · show ((blinkPhase ref s d).2 ++
        (smilePhase ref (blinkPhase ref s d).1 d).2).countP (fun m => m.isSuccess) = _
      rw [List.countP_append, hb0, hs0]
      simp

lemma processDetections_blink_source (ref : List ℝ) (s : SessionState)
    (dets : List Detection)
    (hb : (processDetections ref s dets).state.blinkDetected = true) :
    s.blinkDetected = true ∨
      ∃ r, Msg.blinkSuccess r ∈ (processDetections ref s dets).msgs := by
  cases dets with
  | nil => exact Or.inl hb
  | cons d ds =>
    rcases processDetections_cases ref s d ds with ⟨h, _⟩ | ⟨h, _⟩ <;>
      rw [h] at hb ⊢ <;>
      simp only [smilePhase_fst_blink] at hb <;>
      rcases blinkPhase_blink_source ref s d hb with h' | ⟨r, hr⟩
    · exact Or.inl h'
    · exact Or.inr ⟨r, by simp [hr]⟩
    · exact Or.inl h'
    · exact Or.inr ⟨r, by simp [hr]⟩

lemma processDetections_smile_source (ref : List ℝ) (s : SessionState)
    (dets : List Detection)
    (hb : (processDetections ref s dets).state.smileDetected = true) :
    s.smileDetected = true ∨
      ∃ r, Msg.smileSuccess r ∈ (processDetections ref s dets).msgs := by
  cases dets with
  | nil => exact Or.inl hb
  | cons d ds =>
    rcases processDetections_cases ref s d ds with ⟨h, _⟩ | ⟨h, _⟩ <;>
      rw [h] at hb ⊢ <;>
      rcases smilePhase_smile_source ref (blinkPhase ref s d).1 d hb with h' | ⟨r, hr⟩
    · rw [blinkPhase_fst_smile] at h'
      exact Or.inl h'
    · exact Or.inr ⟨r, by simp [hr]⟩
    · rw [blinkPhase_fst_smile] at h'
      exact Or.inl h'
    · exact Or.inr ⟨r, by simp [hr]⟩

lemma processDetections_success_mem (ref : List ℝ) (s : SessionState)
    (dets : List Detection) (hm : Msg.success ∈ (processDetections ref s dets).msgs) :
    (processDetections ref s dets).done = true := by
  cases dets with
  | nil => simp [processDetections_nil] at hm
  | cons d ds =>
    rcases processDetections_cases ref s d ds with ⟨h, _⟩ | ⟨h, _⟩ <;> rw [h] at hm ⊢
    rcases List.mem_append.mp hm with h1 | h2
    · have := (blinkPhase_msgs_kinds ref s d Msg.success h1).2
      simp [Msg.isSuccess] at this
    · have := (smilePhase_msgs_kinds ref (blinkPhase ref s d).1 d Msg.success h2).1
      simp [Msg.isSuccess] at this

/-- Splitting an appended list at a distinguished element: the element lies in
the first part with the same prefix, or the prefix extends the whole first
part. -/
lemma append_split_cases {α : Type} {xs ys l₁ l₂ : List α} {m : α}
    (h : xs ++ ys = l₁ ++ m :: l₂) :
    (∃ t, xs = l₁ ++ m :: t) ∨ (∃ t, l₁ = xs ++ t ∧ ys = t ++ m :: l₂) := by
  rcases List.append_eq_append_iff.mp h with ⟨a, ha1, ha2⟩ | ⟨c, hc1, hc2⟩
  · exact Or.inr ⟨a, ha1, ha2⟩
  · cases c with
    | nil =>
      simp only [List.append_nil] at hc1
      exact Or.inr ⟨[], by simp [hc1], by simpa using hc2.symm⟩
    | cons x c' =>
      have hx : m = x ∧ l₂ = c' ++ ys := by
        have h2 := hc2
        simp only [List.cons_append, List.cons.injEq] at h2
        exact h2
      exact Or.inl ⟨c', by rw [hc1, hx.1]⟩

lemma processDetections_smile_after (ref : List ℝ) (s : SessionState)
    (dets : List Detection) (l₁ : List Msg) (m : Msg) (l₂ : List Msg)
    (hsplit : (processDetections ref s dets).msgs = l₁ ++ m :: l₂)
    (hm : m.isSmileScore = true) :
    s.blinkDetected = true ∨ ∃ m' ∈ l₁, m'.isBlinkSuccess = true := by
  cases dets with
  | nil =>
    rw [processDetections_nil] at hsplit
    cases l₁ with
    | nil =>
      simp only [List.nil_append, List.cons.injEq] at hsplit
      rw [← hsplit.1] at hm
      simp [Msg.isSmileScore] at hm
    | cons a t => simp at hsplit
  | cons d ds =>
    rcases processDetections_cases ref s d ds with ⟨h, _⟩ | ⟨h, _⟩ <;> rw [h] at hsplit
    · rw [List.append_assoc] at hsplit
      rcases append_split_cases hsplit with ⟨t, ht⟩ | ⟨t, ht1, ht2⟩
      · have hmem : m ∈ (blinkPhase ref s d).2 := by rw [ht]; simp
        have hk := (blinkPhase_msgs_kinds ref s d m hmem).1
        rw [hk] at hm
        simp at hm
      · have hmem : m ∈ (smilePhase ref (blinkPhase ref s d).1 d).2 ++ [Msg.success] := by
          rw [ht2]
          simp
        rcases List.mem_append.mp hmem with h2 | h3
        · have hblink := smilePhase_smileScore_needs_blink ref (blinkPhase ref s d).1 d m h2 hm
          rcases blinkPhase_blink_source ref s d hblink with hb | ⟨r, hr⟩
          · exact Or.inl hb
          · exact Or.inr ⟨Msg.blinkSuccess r,
              by rw [ht1]; exact List.mem_append_left _ hr, by simp [Msg.isBlinkSuccess]⟩
        · simp only [List.mem_singleton] at h3
          rw [h3] at hm
          simp [Msg.isSmileScore] at hm
    · rcases append_split_cases hsplit with ⟨t, ht⟩ | ⟨t, ht1, ht2⟩
      · have hmem : m ∈ (blinkPhase ref s d).2 := by rw [ht]; simp
        have hk := (blinkPhase_msgs_kinds ref s d m hmem).1
        rw [hk] at hm
        simp at hm
      · have hmem : m ∈ (smilePhase ref (blinkPhase ref s d).1 d).2 := by
          rw [ht2]
          simp
        have hblink := smilePhase_smileScore_needs_blink ref (blinkPhase ref s d).1 d m hmem hm
        rcases blinkPhase_blink_source ref s d hblink with hb | ⟨r, hr⟩
        · exact Or.inl hb
        · exact Or.inr ⟨Msg.blinkSuccess r,
            by rw [ht1]; exact List.mem_append_left _ hr, by simp [Msg.isBlinkSuccess]⟩

/-! Run-level lemmas about the frame loop. -/

lemma runAux_nil (ref : List ℝ) (s : SessionState) :
    runAux ref s [] = ⟨[], 0, Outcome.outOfFrames, s⟩ := rfl

lemma runAux_err (ref : List ℝ) (s : SessionState) (rest : List FrameResult) :
    runAux ref s (FrameResult.err :: rest) = ⟨[], 0, Outcome.backendError, s⟩ := rfl

lemma runAux_ok_done (ref : List ℝ) (s : SessionState) (dets : List Detection)
    (rest : List FrameResult) (st : SessionState) (ms : List Msg)
    (h : processDetections ref s dets = ⟨st, ms, true⟩) :
    runAux ref s (FrameResult.ok dets :: rest) = ⟨ms, 1, Outcome.completed, st⟩ := by
  simp only [runAux, h]
  simp

lemma runAux_ok_continue (ref : List ℝ) (s : SessionState) (dets : List Detection)
    (rest : List FrameResult) (st : SessionState) (ms : List Msg)
    (h : processDetections ref s dets = ⟨st, ms, false⟩) :
    runAux ref s (FrameResult.ok dets :: rest) =
      ⟨ms ++ (runAux ref st rest).msgs, (runAux ref st rest).callbackCount,
        (runAux ref st rest).outcome, (runAux ref st rest).state⟩ := by
  simp only [runAux, h]
  simp

lemma frameStep_eta (ref : List ℝ) (s : SessionState) (dets : List Detection) :
    processDetections ref s dets = ⟨(processDetections ref s dets).state,
      (processDetections ref s dets).msgs, (processDetections ref s dets).done⟩ := rfl

lemma runAux_callback_outcome (ref : List ℝ) (frames : List FrameResult) :
    ∀ s : SessionState, (runAux ref s frames).callbackCount =
      (if (runAux ref s frames).outcome = Outcome.completed then 1 else 0) := by
  induction frames with
  | nil =>
    intro s
    simp [runAux_nil]
  | cons fr rest ih =>
    intro s
    cases fr with
    | err => simp [runAux_err]
    | ok dets =>
      have h0 := frameStep_eta ref s dets
      by_cases hd : (processDetections ref s dets).done = true
      · rw [hd] at h0
        rw [runAux_ok_done ref s dets rest _ _ h0]
        simp
      · have hd' : (processDetections ref s dets).done = false := by simpa using hd
        rw [hd'] at h0
        rw [runAux_ok_continue ref s dets rest _ _ h0]
        exact ih _

lemma runAux_success_count (ref : List ℝ) (frames : List FrameResult) :
    ∀ s : SessionState, (runAux ref s frames).msgs.countP (fun m => m.isSuccess) =
      (runAux ref s frames).callbackCount := by
  induction frames with
  | nil =>
    intro s
    simp [runAux_nil]
  | cons fr rest ih =>
    intro s
    cases fr with
    | err => simp [runAux_err]
    | ok dets =>
      have h0 := frameStep_eta ref s dets
      have hcount := processDetections_success_count ref s dets
      by_cases hd : (processDetections ref s dets).done = true
      · rw [hd] at h0
        rw [runAux_ok_done ref s dets rest _ _ h0]
        rw [hd] at hcount
        simpa using hcount
      · have hd' : (processDetections ref s dets).done = false := by simpa using hd
        rw [hd'] at h0
        rw [runAux_ok_continue ref s dets rest _ _ h0]
        rw [hd'] at hcount
        simp only [List.countP_append]
        simp only [if_neg (by simp : ¬(false = true))] at hcount
        rw [hcount, ih _]
        simp

lemma runAux_completed_iff (ref : List ℝ) (frames : List FrameResult) :
    ∀ s : SessionState, ¬(s.blinkDetected = true ∧ s.smileDetected = true) →
      ((runAux ref s frames).outcome = Outcome.completed ↔
        ((runAux ref s frames).state.blinkDetected = true ∧
          (runAux ref s frames).state.smileDetected = true)) := by
  induction frames with
  | nil =>
    intro s hinv
    rw [runAux_nil]
    simp only []
    constructor
    · intro h
      simp at h
    · intro h
      exact absurd h hinv
  | cons fr rest ih =>
    intro s hinv
    cases fr with
    | err =>
      rw [runAux_err]
      simp only []
      constructor
      · intro h
        simp at h
      · intro h
        exact absurd h hinv
    | ok dets =>
      have h0 := frameStep_eta ref s dets
      by_cases hd : (processDetections ref s dets).done = true
      · rw [hd] at h0
        rw [runAux_ok_done ref s dets rest _ _ h0]
        simpa using processDetections_done_state ref s dets hd
      · have hd' : (processDetections ref s dets).done = false := by simpa using hd
        rw [hd'] at h0
        rw [runAux_ok_continue ref s dets rest _ _ h0]
        exact ih _ (processDetections_not_done ref s dets hinv hd')

lemma runAux_smile_after (ref : List ℝ) (frames : List FrameResult) :
    ∀ (s : SessionState) (l₁ : List Msg) (m : Msg) (l₂ : List Msg),
      (runAux ref s frames).msgs = l₁ ++ m :: l₂ → m.isSmileScore = true →
      s.blinkDetected = true ∨ ∃ m' ∈ l₁, m'.isBlinkSuccess = true := by
  induction frames with
  | nil =>
    intro s l₁ m l₂ hsplit _
    rw [runAux_nil] at hsplit
    exact absurd hsplit (by simp)
  | cons fr rest ih =>
    intro s l₁ m l₂ hsplit hm
    cases fr with
    | err =>
      rw [runAux_err] at hsplit
      exact absurd hsplit (by simp)
    | ok dets =>
      have h0 := frameStep_eta ref s dets
      by_cases hd : (processDetections ref s dets).done = true
      · rw [hd] at h0
        rw [runAux_ok_done ref s dets rest _ _ h0] at hsplit
        exact processDetections_smile_after ref s dets l₁ m l₂ hsplit hm
      · have hd' : (processDetections ref s dets).done = false := by simpa using hd
        rw [hd'] at h0
        rw [runAux_ok_continue ref s dets rest _ _ h0] at hsplit
        rcases append_split_cases hsplit with ⟨t, ht⟩ | ⟨t, ht1, ht2⟩
        · exact processDetections_smile_after ref s dets l₁ m t ht hm
        · rcases ih (processDetections ref s dets).state t m l₂ ht2 hm with
            hb | ⟨m', hm', hp⟩
          · rcases processDetections_blink_source ref s dets hb with hsb | ⟨r, hr⟩
            · exact Or.inl hsb
            · exact Or.inr ⟨Msg.blinkSuccess r,
                by rw [ht1]; exact List.mem_append_left _ hr,
                by simp [Msg.isBlinkSuccess]⟩
          · exact Or.inr ⟨m', by rw [ht1]; exact List.mem_append_right _ hm', hp⟩

lemma runAux_noskip (ref : List ℝ) (frames : List FrameResult) :
    ∀ s : SessionState, Msg.success ∈ (runAux ref s frames).msgs →
      (s.blinkDetected = true ∨
        ∃ r, Msg.blinkSuccess r ∈ (runAux ref s frames).msgs) ∧
      (s.smileDetected = true ∨
        ∃ r, Msg.smileSuccess r ∈ (runAux ref s frames).msgs) := by
  induction frames with
  | nil =>
    intro s hmem
    rw [runAux_nil] at hmem
    simp at hmem
  | cons fr rest ih =>
    intro s hmem
    cases fr with
    | err =>
      rw [runAux_err] at hmem
      simp at hmem
    | ok dets =>
      have h0 := frameStep_eta ref s dets
      by_cases hd : (processDetections ref s dets).done = true
      · rw [hd] at h0
        rw [runAux_ok_done ref s dets rest _ _ h0] at hmem ⊢
        have hstate := processDetections_done_state ref s dets hd
        constructor
        · rcases processDetections_blink_source ref s dets hstate.1 with hb | ⟨r, hr⟩
          · exact Or.inl hb
          · exact Or.inr ⟨r, hr⟩
        · rcases processDetections_smile_source ref s dets hstate.2 with hb | ⟨r, hr⟩
          · exact Or.inl hb
          · exact Or.inr ⟨r, hr⟩
      · have hd' : (processDetections ref s dets).done = false := by simpa using hd
        rw [hd'] at h0
        rw [runAux_ok_continue ref s dets rest _ _ h0] at hmem ⊢
        simp only [] at hmem
        rcases List.mem_append.mp hmem with h1 | h2
        · have := processDetections_success_mem ref s dets
          rw [h0] at this
          have hcontra := this h1
          simp at hcontra
        · have hih := ih (processDetections ref s dets).state h2
          constructor
          · rcases hih.1 with hb | ⟨r, hr⟩
            · rcases processDetections_blink_source ref s dets hb with hsb | ⟨r, hr⟩
              · exact Or.inl hsb
              · exact Or.inr ⟨r, List.mem_append_left _ hr⟩
            · exact Or.inr ⟨r, List.mem_append_right _ hr⟩
          · rcases hih.2 with hb | ⟨r, hr⟩
            · rcases processDetections_smile_source ref s dets hb with hsb | ⟨r, hr⟩
              · exact Or.inl hsb
              · exact Or.inr ⟨r, List.mem_append_left _ hr⟩
            · exact Or.inr ⟨r, List.mem_append_right _ hr⟩

/-! Evaluation of the loop on the concrete scripted feeds. -/

lemma isBlink_open : isBlink BLINK_THRESHOLD (vEye (7 / 10)) (vEye (7 / 10)) = false := by
  unfold isBlink BLINK_THRESHOLD
  rw [vEye_ear (7 / 10) (by norm_num)]
  simp only [jsLt]
  rw [decide_eq_false (by norm_num : ¬((7 : ℝ) / 10 < 6 / 10))]
  rfl

lemma isBlink_closed : isBlink BLINK_THRESHOLD (vEye (1 / 10)) (vEye (1 / 10)) = true := by
  unfold isBlink BLINK_THRESHOLD
  rw [vEye_ear (1 / 10) (by norm_num)]
  simp only [jsLt]
  rw [decide_eq_true (by norm_num : (1 : ℝ) / 10 < 6 / 10)]
  rfl

lemma blinkPhase_dOpen : blinkPhase refC ⟨false, false⟩ dOpen = (⟨false, false⟩,
    [Msg.earLog (JsNum.num (7 / 10)) (JsNum.num (7 / 10)), Msg.pleaseBlink]) := by
  have h1 : eyeAspectRatio dOpen.leftEye = JsNum.num (7 / 10) :=
    vEye_ear (7 / 10) (by norm_num)
  have h2 : eyeAspectRatio dOpen.rightEye = JsNum.num (7 / 10) :=
    vEye_ear (7 / 10) (by norm_num)
  have hib : isBlink BLINK_THRESHOLD dOpen.leftEye dOpen.rightEye = false := isBlink_open
  have h := blinkPhase_noBlink refC ⟨false, false⟩ dOpen rfl hib
  rw [h1, h2] at h
  exact h

lemma frame_dOpen : processDetections refC ⟨false, false⟩ [dOpen] = ⟨⟨false, false⟩,
    [Msg.earLog (JsNum.num (7 / 10)) (JsNum.num (7 / 10)), Msg.pleaseBlink], false⟩ := by
  have hs : smilePhase refC ⟨false, false⟩ dOpen = (⟨false, false⟩, []) :=
    smilePhase_notReady _ _ _ rfl
  have h := processDetections_eval refC ⟨false, false⟩ dOpen [] _ _ _ _
    blinkPhase_dOpen hs rfl
  simpa using h

lemma euclid_dBlink_refC : euclideanDistance dBlink.descriptor refC = 1 / 20 :=
  euclid_dBlink

lemma matchRate_dBlink : matchRate (euclideanDistance dBlink.descriptor refC) = 95 := by
  rw [euclid_dBlink_refC, matchRate_95]

lemma blinkPhase_dBlink : blinkPhase refC ⟨false, false⟩ dBlink = (⟨true, false⟩,
    [Msg.earLog (JsNum.num (1 / 10)) (JsNum.num (1 / 10)), Msg.pleaseBlink,
      Msg.blinkDetectedMsg, Msg.blinkSuccess 95]) := by
  have h1 : eyeAspectRatio dBlink.leftEye = JsNum.num (1 / 10) :=
    vEye_ear (1 / 10) (by norm_num)
  have h2 : eyeAspectRatio dBlink.rightEye = JsNum.num (1 / 10) :=
    vEye_ear (1 / 10) (by norm_num)
  have hib : isBlink BLINK_THRESHOLD dBlink.leftEye dBlink.rightEye = true := isBlink_closed
  have h := blinkPhase_pass refC ⟨false, false⟩ dBlink rfl hib
    (by rw [matchRate_dBlink]; norm_num)
  rw [h1, h2, matchRate_dBlink] at h
  exact h

lemma smilePhase_dBlink : smilePhase refC ⟨true, false⟩ dBlink =
    (⟨true, false⟩, [Msg.pleaseSmile]) := by
  refine smilePhase_noSmile refC ⟨true, false⟩ dBlink rfl rfl ?_
  show ¬ (0 : ℝ) > 7 / 10
  norm_num

lemma frame_dBlink : processDetections refC ⟨false, false⟩ [dBlink] = ⟨⟨true, false⟩,
    [Msg.earLog (JsNum.num (1 / 10)) (JsNum.num (1 / 10)), Msg.pleaseBlink,
      Msg.blinkDetectedMsg, Msg.blinkSuccess 95, Msg.pleaseSmile], false⟩ := by
  have h := processDetections_eval refC ⟨false, false⟩ dBlink [] _ _ _ _
    blinkPhase_dBlink smilePhase_dBlink rfl
  simpa using h

lemma run_feedC1 : run refC feedC1 = ⟨[Msg.noFaces,
    Msg.earLog (JsNum.num (7 / 10)) (JsNum.num (7 / 10)), Msg.pleaseBlink,
    Msg.earLog (JsNum.num (1 / 10)) (JsNum.num (1 / 10)), Msg.pleaseBlink,
    Msg.blinkDetectedMsg, Msg.blinkSuccess 95, Msg.pleaseSmile],
    0, Outcome.outOfFrames, ⟨true, false⟩⟩ := by
  unfold run feedC1
  rw [runAux_ok_continue refC ⟨false, false⟩ [] _ _ _ (processDetections_nil _ _),
    runAux_ok_continue refC ⟨false, false⟩ [dOpen] _ _ _ frame_dOpen,
    runAux_ok_continue refC ⟨false, false⟩ [dBlink] _ _ _ frame_dBlink,
    runAux_nil]
  rfl

lemma matchRate_dFull : matchRate (euclideanDistance dFull.descriptor refC) = 100 := by
  have he : euclideanDistance dFull.descriptor refC = 0 := euclid_self_pair
  rw [he, matchRate_zero]

lemma blinkPhase_dFull : blinkPhase refC ⟨false, false⟩ dFull = (⟨true, false⟩,
    [Msg.earLog (JsNum.num (1 / 10)) (JsNum.num (1 / 10)), Msg.pleaseBlink,
      Msg.blinkDetectedMsg, Msg.blinkSuccess 100]) := by
  have h1 : eyeAspectRatio dFull.leftEye = JsNum.num (1 / 10) :=
    vEye_ear (1 / 10) (by norm_num)
  have h2 : eyeAspectRatio dFull.rightEye = JsNum.num (1 / 10) :=
    vEye_ear (1 / 10) (by norm_num)
  have hib : isBlink BLINK_THRESHOLD dFull.leftEye dFull.rightEye = true := isBlink_closed
  have h := blinkPhase_pass refC ⟨false, false⟩ dFull rfl hib
    (by rw [matchRate_dFull]; norm_num)
  rw [h1, h2, matchRate_dFull] at h
  exact h

lemma smilePhase_dFull : smilePhase refC ⟨true, false⟩ dFull = (⟨true, true⟩,
    [Msg.pleaseSmile, Msg.smileDetectedMsg, Msg.smileSuccess 100]) := by
  have hh : dFull.happy > 7 / 10 := by
    show (9 : ℝ) / 10 > 7 / 10
    norm_num
  have h := smilePhase_pass refC ⟨true, false⟩ dFull rfl rfl hh
    (by rw [matchRate_dFull]; norm_num)
  rw [matchRate_dFull] at h
  exact h

lemma frame_dFull : processDetections refC ⟨false, false⟩ [dFull] = ⟨⟨true, true⟩,
    [Msg.earLog (JsNum.num (1 / 10)) (JsNum.num (1 / 10)), Msg.pleaseBlink,
      Msg.blinkDetectedMsg, Msg.blinkSuccess 100, Msg.pleaseSmile,
      Msg.smileDetectedMsg, Msg.smileSuccess 100, Msg.success], true⟩ := by
  have h := processDetections_eval_done refC ⟨false, false⟩ dFull [] _ _ _ _
    blinkPhase_dFull smilePhase_dFull rfl
  simpa using h

lemma run_feedFull : run refC feedFull = ⟨[Msg.earLog (JsNum.num (1 / 10))
    (JsNum.num (1 / 10)), Msg.pleaseBlink, Msg.blinkDetectedMsg,
    Msg.blinkSuccess 100, Msg.pleaseSmile, Msg.smileDetectedMsg,
    Msg.smileSuccess 100, Msg.success], 1, Outcome.completed, ⟨true, true⟩⟩ := by
  unfold run feedFull
  rw [runAux_ok_done refC ⟨false, false⟩ [dFull] [] _ _ frame_dFull]

lemma run_feedErr : run refC feedErr =
    ⟨[Msg.noFaces], 0, Outcome.backendError, ⟨false, false⟩⟩ := by
  unfold run feedErr
  rw [runAux_ok_continue refC ⟨false, false⟩ [] _ _ _ (processDetections_nil _ _),
    runAux_err]
  rfl

lemma detectSingleFace_facesTwo :
    detectSingleFace facesTwo = some ⟨2, [1]⟩ := by
  unfold detectSingleFace facesTwo
  simp only [List.foldl_cons, List.foldl_nil]
  rw [if_pos (by norm_num : (2 : ℝ) > 1)]

/-! The claims. -/

/-- C3: for every face, the blink detector computes each eye's aspect ratio
as dist(p1,p5) / dist(p0,p3) over the eye's 6 contour points and returns true
exactly when both eyes' ratios are strictly below the threshold; if at least
one ratio is greater than or equal to the threshold (including exact
equality) it returns false.  Stated for nondegenerate eyes (nonzero width),
where the JavaScript division produces exactly the real ratio. -/
theorem C3_blink_detector_iff (l r : Eye) (t : ℝ)
    (hl : eyeWidth l ≠ 0) (hr : eyeWidth r ≠ 0) :
    isBlink t l r = true ↔
      (eyeHeight l / eyeWidth l < t ∧ eyeHeight r / eyeWidth r < t) := by
  unfold isBlink
  rw [eyeAspectRatio_of_width_ne l hl, eyeAspectRatio_of_width_ne r hr]
  simp [jsLt]

/-- Witness for C3 at a concrete open/closed eye pair with unit widths. -/
theorem C3_witness :
    eyeWidth (vEye (7 / 10)) ≠ 0 ∧ eyeWidth (vEye (1 / 10)) ≠ 0 ∧
      (isBlink (6 / 10) (vEye (7 / 10)) (vEye (1 / 10)) = true ↔
        (eyeHeight (vEye (7 / 10)) / eyeWidth (vEye (7 / 10)) < 6 / 10 ∧
          eyeHeight (vEye (1 / 10)) / eyeWidth (vEye (1 / 10)) < 6 / 10)) := by
  have h1 : eyeWidth (vEye (7 / 10)) ≠ 0 := by rw [vEye_width]; norm_num
  have h2 : eyeWidth (vEye (1 / 10)) ≠ 0 := by rw [vEye_width]; norm_num
  exact ⟨h1, h2, C3_blink_detector_iff _ _ _ h1 h2⟩

/-- C10: when an eye's horizontal width dist(p0,p3) is zero, the unguarded
division yields a non-finite aspect ratio (Infinity or NaN), and the blink
predicate evaluates to false whichever side the degenerate eye is on: the
detector never signals a blink on zero-width eye geometry (and, being a total
function, never faults). -/
theorem C10_degenerate_eye (e other : Eye) (t : ℝ) (h : eyeWidth e = 0) :
    (eyeAspectRatio e = JsNum.posInf ∨ eyeAspectRatio e = JsNum.nan) ∧
      isBlink t e other = false ∧ isBlink t other e = false := by
  have hear : eyeAspectRatio e = JsNum.posInf ∨ eyeAspectRatio e = JsNum.nan := by
    unfold eyeAspectRatio jsDiv
    rw [if_pos h]
    by_cases hh : eyeHeight e = 0
    · rw [if_pos hh]
      exact Or.inr rfl
    · rw [if_neg hh]
      exact Or.inl rfl
  refine ⟨hear, ?_, ?_⟩
  · unfold isBlink
    rcases hear with he | he <;> rw [he] <;> simp [jsLt]
  · unfold isBlink
    rcases hear with he | he <;> rw [he] <;> simp [jsLt]

/-- Witness for C10 at the fully degenerate eye. -/
theorem C10_witness :
    eyeWidth degEye = 0 ∧
      ((eyeAspectRatio degEye = JsNum.posInf ∨ eyeAspectRatio degEye = JsNum.nan) ∧
        isBlink (6 / 10) degEye (vEye (7 / 10)) = false ∧
        isBlink (6 / 10) (vEye (7 / 10)) degEye = false) :=
  ⟨degEye_width, C10_degenerate_eye degEye (vEye (7 / 10)) (6 / 10) degEye_width⟩

/-- C2 counterexample: at distance 0.20001 the raw rate is 79.999 < 80, yet
the verdict (which compares the toFixed(2)-rounded rate, here 80.00) is true;
so "verdict ↔ raw rate ≥ τ" fails at the rounding boundary. -/
theorem C2_counterexample :
    isMatchVerdict (euclideanDistance [(20001 : ℝ) / 100000] [0]) 80 ∧
      ¬((1 - euclideanDistance [(20001 : ℝ) / 100000] [0]) * 100 ≥ 80) := by
  have he : euclideanDistance [(20001 : ℝ) / 100000] [0] = 20001 / 100000 :=
    euclid_single _ (by norm_num)
  constructor
  · unfold isMatchVerdict
    rw [he, matchRate_boundary]
  · rw [he]
    norm_num

/-- C2 amended: the verdict is true iff the match rate rounded to two decimal
places is at least τ; equivalently, for τ a whole multiple of 1/100, iff the
raw rate (1 − d)·100 is at least τ − 0.005. -/
theorem C2_verdict_rounded (a b : List ℝ) (t : ℝ) (k : ℤ)
    (hk : (k : ℝ) = 100 * t) :
    isMatchVerdict (euclideanDistance a b) t ↔
      (1 - euclideanDistance a b) * 100 ≥ t - 1 / 200 := by
  unfold isMatchVerdict matchRate
  rw [ge_iff_le, le_div_iff (by norm_num : (0 : ℝ) < 100), mul_comm t 100, ← hk,
    Int.cast_le, round_eq, Int.le_floor, hk]
  constructor <;> intro h <;> linarith

/-- Witness for C2 at identical descriptors with τ = 80. -/
theorem C2_witness : ((8000 : ℤ) : ℝ) = 100 * 80 ∧
    (isMatchVerdict (euclideanDistance [(0 : ℝ), 0] [0, 0]) 80 ↔
      (1 - euclideanDistance [(0 : ℝ), 0] [0, 0]) * 100 ≥ 80 - 1 / 200) :=
  ⟨by norm_num, C2_verdict_rounded [0, 0] [0, 0] 80 8000 (by norm_num)⟩

/-- C4 counterexample: at distance 6/5 > 1 the produced rate is −20; the
code performs no clamping, so the rate is negative, contradicting the claimed
clamp to [0,100]. -/
theorem C4_counterexample :
    matchRate (euclideanDistance [(6 : ℝ) / 5] [0]) < 0 := by
  rw [euclid_single _ (by norm_num : (0 : ℝ) ≤ 6 / 5), matchRate_neg]
  norm_num

/-- C4 amended: the rate equals (1 − d)·100 rounded to two decimal places
(no clamping); it never exceeds 100 — unconditionally, because the euclidean
distance is nonnegative — and it is nonnegative whenever d ≤ 1; but for d
sufficiently above 1 it is negative. -/
theorem C4_rate_bounds (a b : List ℝ) :
    matchRate (euclideanDistance a b) ≤ 100 ∧
      (euclideanDistance a b ≤ 1 → 0 ≤ matchRate (euclideanDistance a b)) := by
  have hd0 : 0 ≤ euclideanDistance a b := Real.sqrt_nonneg _
  unfold matchRate
  constructor
  · rw [div_le_iff (by norm_num : (0 : ℝ) < 100)]
    have hr : round ((1 - euclideanDistance a b) * 100 * 100) ≤ 10000 := by
      rw [round_eq]
      have hfl := Int.floor_le ((1 - euclideanDistance a b) * 100 * 100 + 1 / 2)
      by_contra hcon
      push_neg at hcon
      have h1 : (10001 : ℤ) ≤ ⌊(1 - euclideanDistance a b) * 100 * 100 + 1 / 2⌋ := by
        omega
      have h2 : (10001 : ℝ) ≤ (1 - euclideanDistance a b) * 100 * 100 + 1 / 2 := by
        calc (10001 : ℝ) = ((10001 : ℤ) : ℝ) := by norm_num
        _ ≤ (⌊(1 - euclideanDistance a b) * 100 * 100 + 1 / 2⌋ : ℝ) := by
            exact_mod_cast h1
        _ ≤ _ := hfl
      nlinarith
    calc ((round ((1 - euclideanDistance a b) * 100 * 100) : ℤ) : ℝ)
        ≤ ((10000 : ℤ) : ℝ) := by exact_mod_cast hr
    _ = 100 * 100 := by norm_num
  · intro h
    apply div_nonneg _ (by norm_num : (0 : ℝ) ≤ 100)
    have hr : (0 : ℤ) ≤ round ((1 - euclideanDistance a b) * 100 * 100) := by
      rw [round_eq, Int.le_floor]
      push_cast
      nlinarith
    exact_mod_cast hr

/-- Witness for C4: the theorem applied at identical descriptors, with both
the unconditional upper bound and the inner implication discharged at
distance 0 ≤ 1. -/
theorem C4_witness : euclideanDistance [(0 : ℝ), 0] [0, 0] ≤ 1 ∧
    (matchRate (euclideanDistance [(0 : ℝ), 0] [0, 0]) ≤ 100 ∧
      0 ≤ matchRate (euclideanDistance [(0 : ℝ), 0] [0, 0])) := by
  have h : euclideanDistance [(0 : ℝ), 0] [0, 0] ≤ 1 := by
    rw [euclid_self_pair]
    norm_num
  have hb := C4_rate_bounds [0, 0] [0, 0]
  exact ⟨h, hb.1, hb.2 h⟩

/-- C1 counterexample: on the scripted three-frame feed the reminder "please
blink" is logged twice (once on the open-eye frame and once more on the blink
frame, before the scoring branch), not once; "no face detected" is logged
once. -/
theorem C1_counterexample :
    (run refC feedC1).msgs.countP (fun m => m.isPleaseBlink) = 2 ∧
      (run refC feedC1).msgs.countP (fun m => m.isNoFaces) = 1 := by
  rw [run_feedC1]
  exact ⟨rfl, rfl⟩

/-- C1 amended: on the scripted feed the log is exactly [no-face, EAR log,
please-blink, EAR log, please-blink, blink-detected, blink-success 95,
please-smile] — "no face detected" once, "please blink" once per face frame
until the blink is scored (twice here, since the reminder precedes the
scoring branch in the same frame), then Blink passes and Smile prompting
begins in that same frame; moreover, in every run a smile-scoring message is
always preceded by a blink-success message (Smile is never scored before
Blink has passed), and a completed run always contains both a blink-success
and a smile-success (no challenge is skipped). -/
theorem C1_scripted_run :
    (run refC feedC1).msgs = [Msg.noFaces,
      Msg.earLog (JsNum.num (7 / 10)) (JsNum.num (7 / 10)), Msg.pleaseBlink,
      Msg.earLog (JsNum.num (1 / 10)) (JsNum.num (1 / 10)), Msg.pleaseBlink,
      Msg.blinkDetectedMsg, Msg.blinkSuccess 95, Msg.pleaseSmile] ∧
    (run refC feedC1).state = ⟨true, false⟩ ∧
    (∀ (ref : List ℝ) (frames : List FrameResult) (l₁ : List Msg) (m : Msg)
      (l₂ : List Msg), (run ref frames).msgs = l₁ ++ m :: l₂ →
      m.isSmileScore = true → ∃ m' ∈ l₁, m'.isBlinkSuccess = true) ∧
    (∀ (ref : List ℝ) (frames : List FrameResult),
      Msg.success ∈ (run ref frames).msgs →
      (∃ r, Msg.blinkSuccess r ∈ (run ref frames).msgs) ∧
      (∃ r, Msg.smileSuccess r ∈ (run ref frames).msgs)) := by
  refine ⟨by rw [run_feedC1], by rw [run_feedC1], ?_, ?_⟩
  · intro ref frames l₁ m l₂ hsplit hm
    rcases runAux_smile_after ref frames ⟨false, false⟩ l₁ m l₂ hsplit hm with
      hb | hex
    · simp at hb
    · exact hex
  · intro ref frames hmem
    have h := runAux_noskip ref frames ⟨false, false⟩ hmem
    constructor
    · rcases h.1 with hb | hex
      · simp at hb
      · exact hex
    · rcases h.2 with hb | hex
      · simp at hb
      · exact hex

/-- Witness for C1: the ordering property applied to a concrete completing
run, at the split just before its smile-scoring message. -/
theorem C1_witness :
    ∃ m' ∈ [Msg.earLog (JsNum.num (1 / 10)) (JsNum.num (1 / 10)),
      Msg.pleaseBlink, Msg.blinkDetectedMsg, Msg.blinkSuccess 100,
      Msg.pleaseSmile], m'.isBlinkSuccess = true := by
  have hsplit : (run refC feedFull).msgs = [Msg.earLog (JsNum.num (1 / 10))
      (JsNum.num (1 / 10)), Msg.pleaseBlink, Msg.blinkDetectedMsg,
      Msg.blinkSuccess 100, Msg.pleaseSmile] ++ Msg.smileDetectedMsg ::
      [Msg.smileSuccess 100, Msg.success] := by
    rw [run_feedFull]
    rfl
  exact C1_scripted_run.2.2.1 refC feedFull _ _ _ hsplit rfl

/-- C7: the completion callback is scheduled at most once per session and
exactly once when (and only when) the session completes; the final success
message is emitted exactly as many times as the callback fires; and the
session completes exactly when every challenge (blink then smile) has been
scored as passed. -/
theorem C7_completion_exactly_once (ref : List ℝ) (frames : List FrameResult) :
    (run ref frames).callbackCount ≤ 1 ∧
    ((run ref frames).outcome = Outcome.completed ↔
      (run ref frames).callbackCount = 1) ∧
    (run ref frames).msgs.countP (fun m => m.isSuccess) =
      (run ref frames).callbackCount ∧
    ((run ref frames).outcome = Outcome.completed ↔
      ((run ref frames).state.blinkDetected = true ∧
        (run ref frames).state.smileDetected = true)) := by
  have hco := runAux_callback_outcome ref frames ⟨false, false⟩
  have hsc := runAux_success_count ref frames ⟨false, false⟩
  have hci := runAux_completed_iff ref frames ⟨false, false⟩ (by simp)
  unfold run
  refine ⟨?_, ?_, hsc, hci⟩
  · rw [hco]
    split_ifs <;> norm_num
  · rw [hco]
    by_cases h : (runAux ref ⟨false, false⟩ frames).outcome = Outcome.completed
    · simp [h]
    · simp [h]

/-- C8: a frame with zero detected faces emits exactly the no-face progress
message, leaves both challenge flags unchanged, does not terminate or fail
the session, and the loop resamples on the next frame with the same state. -/
theorem C8_noface_frame (ref : List ℝ) (s : SessionState)
    (rest : List FrameResult) :
    processDetections ref s [] = ⟨s, [Msg.noFaces], false⟩ ∧
    runAux ref s (FrameResult.ok [] :: rest) =
      ⟨Msg.noFaces :: (runAux ref s rest).msgs,
        (runAux ref s rest).callbackCount, (runAux ref s rest).outcome,
        (runAux ref s rest).state⟩ := by
  refine ⟨processDetections_nil ref s, ?_⟩
  rw [runAux_ok_continue ref s [] rest _ _ (processDetections_nil ref s)]
  rfl

/-- C5: evaluating the loop at a feed whose second detect call rejects: the
loop halts at that frame (the following frame is never processed — no
retry), but no error message is ever emitted (the catch handler of line 212
cannot observe the rejection of the never-awaited async processFrame) and
the completion callback never fires; nothing is propagated to the caller. -/
theorem C5_backend_error_silent :
    run refC feedErr = ⟨[Msg.noFaces], 0, Outcome.backendError, ⟨false, false⟩⟩ ∧
    (run refC feedErr).msgs.countP (fun m => m.isErrorMsg) = 0 ∧
    (run refC feedErr).callbackCount = 0 := by
  refine ⟨run_feedErr, ?_, ?_⟩ <;> rw [run_feedErr] <;> rfl

/-- C6 counterexample: a session supposedly invalidated by a mid-session
upload still completes — the completion callback fires once for the
abandoned session. -/
theorem C6_counterexample :
    (runAfterUpload refC refNew feedFull).callbackCount = 1 ∧
      (runAfterUpload refC refNew feedFull).outcome = Outcome.completed := by
  unfold runAfterUpload
  rw [run_feedFull]
  exact ⟨rfl, rfl⟩

/-- C6 amended: uploading a new reference image does not invalidate the
running session — the run is entirely independent of the uploaded profile
(the loop's closure keeps the captured descriptor, so the replaced profile
is indeed never used by the old session), and the abandoned session's
completion callback can still fire. -/
theorem C6_upload_no_invalidation :
    (∀ (ref0 a b : List ℝ) (frames : List FrameResult),
      runAfterUpload ref0 a frames = runAfterUpload ref0 b frames) ∧
    (∀ (ref0 a : List ℝ) (frames : List FrameResult),
      runAfterUpload ref0 a frames = run ref0 frames) ∧
    (∃ frames : List FrameResult,
      (runAfterUpload refC refNew frames).callbackCount = 1) := by
  refine ⟨fun _ _ _ _ => rfl, fun _ _ _ => rfl, ⟨feedFull, ?_⟩⟩
  unfold runAfterUpload
  rw [run_feedFull]

/-- C9 counterexample: a two-face enrollment image is not rejected — a
profile is created from the highest-score face and no error is reported. -/
theorem C9_counterexample :
    processReferenceImage facesTwo = (some [1], false) := by
  unfold processReferenceImage
  rw [detectSingleFace_facesTwo]

/-- C9 amended: a zero-face enrollment image is rejected with a reported
error and no profile is created; an image in which the backend finds a best
face — also when the image contains more than one face — yields a profile
from that single best detection with no error; and a session never starts
without an existing reference profile. -/
theorem C9_enrollment (faces : List EnrollFace) (f : EnrollFace)
    (hf : detectSingleFace faces = some f) :
    processReferenceImage [] = (none, true) ∧
    processReferenceImage faces = (some f.descriptor, false) ∧
    (∀ m c : Bool, sessionStarts m none c = false) := by
  refine ⟨rfl, ?_, ?_⟩
  · unfold processReferenceImage
    rw [hf]
  · intro m c
    unfold sessionStarts
    simp

/-- Witness for C9 at the two-face image. -/
theorem C9_witness : detectSingleFace facesTwo = some ⟨2, [1]⟩ ∧
    (processReferenceImage [] = (none, true) ∧
      processReferenceImage facesTwo =
        (some (EnrollFace.mk 2 [1]).descriptor, false) ∧
      (∀ m c : Bool, sessionStarts m none c = false)) :=
  ⟨detectSingleFace_facesTwo,
    C9_enrollment facesTwo ⟨2, [1]⟩ detectSingleFace_facesTwo⟩

end FaceRecog
